import Mathlib

/-!
Verification development for the adaptive-fabric repository
(src/agent.py and src/fabric.py), a shallow embedding in Lean 4.

Python dictionaries keyed by strings are embedded as total functions
`String → Option _`; `collections.defaultdict(list)` is embedded as a total
function `String → List String` whose default value is `[]` (this is the
observable behaviour of a defaultdict under lookup and mutation).
Exceptions are embedded as an `Option String` error component returned next
to the post-state, since Python exceptions can escape an operation after it
has already mutated part of the state (`list.remove` inside
`disconnect_agents`).  `logger.warning` output is kept in the state
(`warnLog`) because `relay_message` uses it observably; `logger.info` and
`logger.debug` calls are not modelled.
-/

namespace Fabric

/-- Embeds `AgentBase.__init__` state (src/agent.py lines 30-40).
`resources` is flattened into its three keys; `communication_channel` is
modelled as an optional queue of `(recipient, content)` pairs, matching the
duck-typed `recv` use in `receive_message`. -/
structure AgentBase where
  agent_id : String
  domain : String
  communication_channel : Option (List (String × String))
  cpu_usage : Rat
  memory_usage : Rat
  active_connections : Int
  status : String
deriving DecidableEq, Repr

namespace AgentBase

/-- `AgentBase.__init__(agent_id, domain)`: channel unset, zero counters,
status `'idle'`. -/
def init (agent_id domain : String) : AgentBase :=
  { agent_id := agent_id
    domain := domain
    communication_channel := none
    cpu_usage := 0
    memory_usage := 0
    active_connections := 0
    status := "idle" }

/-- `AgentBase.activate` (src/agent.py lines 46-60).  The domain-specific
`_runtime_loop` is abstract (subclasses override it), so its outcome is an
explicit argument: `.ok ()` for normal return, `.error e` for a raised
exception.  The source wraps the call in `try/except` and the handler only
logs and sets `status = 'error'`, so `activate` itself never lets an
exception escape: the result is always `Except.ok`. -/
def activate (ag : AgentBase) (runtime : Except String Unit) :
    Except String AgentBase :=
  if ag.status = "active" then
    .ok ag
  else
    -- self.status = 'activating'
    let ag1 : AgentBase := { ag with status := "activating" }
    match runtime with
    | .ok _ => .ok { ag1 with status := "active" }
    | .error _ => .ok { ag1 with status := "error" }  -- exception caught, logged

/-- `AgentBase.receive_message` (src/agent.py lines 91-109).  Returns the
received content (or `none`) together with the agent afterwards.  The whole
body is wrapped in `try/except` returning `None`, so: unset channel (the
raised `RuntimeError`) gives `none`; an empty queue (falsy `message`) gives
`none`; a dequeued message whose recipient differs from `agent_id` (the
raised `ValueError`) gives `none` with the message already consumed. -/
def receive_message (ag : AgentBase) : Option String × AgentBase :=
  match ag.communication_channel with
  | none => (none, ag)
  | some [] => (none, ag)
  | some ((recipient, content) :: rest) =>
    let ag1 : AgentBase := { ag with communication_channel := some rest }
    if recipient = ag.agent_id then (some content, ag1) else (none, ag1)

end AgentBase

/-- The channel dict built by `connect_agents` (src/fabric.py lines 43-47):
`{'source': ..., 'target': ..., 'timestamp': ...}`.  The timestamp
(`datetime.now().isoformat()`) is an opaque value supplied at call time. -/
structure Channel where
  source : String
  target : String
  timestamp : Nat
deriving DecidableEq, Repr

/-- Pointwise update of a total map, the embedding of a Python dict write. -/
def upd {α : Type} (f : String → α) (k : String) (v : α) : String → α :=
  fun x => if x = k then v else f x

/-- Embeds `AdaptiveFabric.__init__` state (src/fabric.py lines 21-27).
`warnLog` records `logger.warning` messages (see module comment). -/
structure AdaptiveFabric where
  agents : String → Option AgentBase
  connections : String → List String
  communication_channels : String → Option Channel
  resource_cpu : Rat
  resource_memory : Rat
  status : String
  warnLog : List String

namespace AdaptiveFabric

/-- A fresh `AdaptiveFabric()`. -/
def init : AdaptiveFabric :=
  { agents := fun _ => none
    connections := fun _ => []
    communication_channels := fun _ => none
    resource_cpu := 0
    resource_memory := 0
    status := "offline"
    warnLog := [] }

/-- The channel-table key `f"{source_agent}_{target_agent}"`. -/
def chanKey (source target : String) : String := source ++ "_" ++ target

/-- `register_agent` (src/fabric.py lines 29-35).  The second component is
the raised `FabricConnectionError` message, `none` on success. -/
def register_agent (s : AdaptiveFabric) (agent_id domain : String) :
    AdaptiveFabric × Option String :=
  if (s.agents agent_id).isSome then
    (s, some ("Agent " ++ agent_id ++ " already registered"))
  else
    ({ s with agents := upd s.agents agent_id (some (AgentBase.init agent_id domain)) },
     none)

/-- `connect_agents` (src/fabric.py lines 37-52).  `ts` stands for the
`datetime.now().isoformat()` timestamp.  Note the source performs no
already-connected check and no self-loop check, and never touches the
agents' `active_connections` counters; the two `append` calls act on the
same list when `source = target`. -/
def connect_agents (s : AdaptiveFabric) (source target : String) (ts : Nat) :
    AdaptiveFabric × Option String :=
  if s.agents source = none ∨ s.agents target = none then
    (s, some "Agents not found")
  else
    let chans := upd s.communication_channels (chanKey source target)
      (some { source := source, target := target, timestamp := ts })
    let c1 := upd s.connections source (s.connections source ++ [target])
    let c2 := upd c1 target (c1 target ++ [source])
    ({ s with communication_channels := chans, connections := c2 }, none)

/-- Embeds Python `list.remove`: `none` models the `ValueError` raised when
the element is absent, otherwise the first occurrence is removed. -/
def removeFirst (l : List String) (x : String) : Option (List String) :=
  if x ∈ l then some (l.erase x) else none

/-- `disconnect_agents` (src/fabric.py lines 54-63).  The channel entry is
deleted before the two `list.remove` calls, so a `ValueError` raised by
either `remove` escapes with the state partially mutated; both partial
post-states are returned faithfully. -/
def disconnect_agents (s : AdaptiveFabric) (source target : String) :
    AdaptiveFabric × Option String :=
  match s.communication_channels (chanKey source target) with
  | none => (s, some "Agents are not connected")
  | some _ =>
    let chans1 := upd s.communication_channels (chanKey source target) none
    let s1 : AdaptiveFabric := { s with communication_channels := chans1 }
    match removeFirst (s1.connections source) target with
    | none => (s1, some "ValueError: list.remove(x): x not in list")
    | some l1 =>
      let s2 : AdaptiveFabric := { s1 with connections := upd s1.connections source l1 }
      match removeFirst (s2.connections target) source with
      | none => (s2, some "ValueError: list.remove(x): x not in list")
      | some l2 =>
        ({ s2 with connections := upd s2.connections target l2 }, none)

/-- `relay_message` (src/fabric.py lines 65-75).  When either agent is
unregistered a `FabricConnectionError` is raised.  When both are registered
but `target ∉ connections[source]`, the source logs a warning and plainly
`return`s: no exception, no typed failure.  The remaining delivery code is
cut off mid-statement in the source (`self.agents[source`); that branch is
modelled as returning with no further state change, which no claim here
depends on. -/
def relay_message (s : AdaptiveFabric) (source target message : String) :
    AdaptiveFabric × Option String :=
  if s.agents source = none ∨ s.agents target = none then
    (s, some "Agents not found")
  else if target ∈ s.connections source then
    (s, none)
  else
    ({ s with warnLog := s.warnLog ++
        ["No direct connection between " ++ source ++ " and " ++ target] },
     none)

/-- Modelled from the spec: `unregister` appears in spec sections 4.4 and 8
but no `unregister` method exists anywhere under src/.  Following the
spec's words: fails with `NotFound` if the id is absent; fails with
`HasConnections` if its degree in the connection graph is positive;
otherwise removes the record.  Failures leave the state untouched. -/
def unregister_agent (s : AdaptiveFabric) (agent_id : String) :
    AdaptiveFabric × Option String :=
  if s.agents agent_id = none then
    (s, some "NotFound")
  else if 0 < (s.connections agent_id).length then
    (s, some "HasConnections")
  else
    ({ s with agents := upd s.agents agent_id none }, none)

/-- Degree of an agent in the connection graph: the length of its adjacency
list. -/
def degree (s : AdaptiveFabric) (agent_id : String) : Nat :=
  (s.connections agent_id).length

end AdaptiveFabric

/-- The mutating fabric operations, for stating reachability invariants. -/
inductive Op where
  | register (agent_id domain : String)
  | connect (source target : String) (ts : Nat)
  | disconnect (source target : String)
  | relay (source target message : String)
deriving DecidableEq, Repr

/-- Apply one operation; a raised exception leaves the caller with the
(possibly partially mutated) state the operation produced. -/
def stepOp (s : AdaptiveFabric) (op : Op) : AdaptiveFabric × Option String :=
  match op with
  | .register id dom => s.register_agent id dom
  | .connect a b ts => s.connect_agents a b ts
  | .disconnect a b => s.disconnect_agents a b
  | .relay a b m => s.relay_message a b m

/-- Run a sequence of operations from a state, keeping post-states of
failed operations (as a Python caller catching each exception would). -/
def runFrom (s : AdaptiveFabric) : List Op → AdaptiveFabric
  | [] => s
  | op :: ops => runFrom (stepOp s op).1 ops

/-- Run a sequence of operations on a fresh fabric. -/
def run (ops : List Op) : AdaptiveFabric :=
  runFrom AdaptiveFabric.init ops

/-! ### Basic lemmas about the embedding's map update and list removal -/

open AdaptiveFabric

theorem upd_self {α : Type} (f : String → α) (k : String) (v : α) :
    upd f k v k = v := by
  simp [upd]

theorem upd_ne {α : Type} (f : String → α) (k : String) (v : α) {x : String}
    (h : x ≠ k) : upd f k v x = f x := by
  simp [upd, h]

theorem removeFirst_eq_none {l : List String} {x : String} :
    removeFirst l x = none ↔ x ∉ l := by
  unfold removeFirst
  split_ifs with h <;> simp [h]

theorem removeFirst_eq_some {l l' : List String} {x : String}
    (h : removeFirst l x = some l') : x ∈ l ∧ l' = l.erase x := by
  unfold removeFirst at h
  split_ifs at h with hm
  exact ⟨hm, (Option.some_inj.mp h).symm⟩

theorem removeFirst_of_mem {l : List String} {x : String} (h : x ∈ l) :
    removeFirst l x = some (l.erase x) := by
  unfold removeFirst
  simp [h]

/-- Count of an element after the sequence of two `append` calls performed
by `connect_agents` on the adjacency map. -/
theorem count_connect (c : String → List String) (a b x y : String) :
    (((upd (upd c a (c a ++ [b])) b
        ((upd c a (c a ++ [b])) b ++ [a])) x).count y)
    = ((c x).count y + (if x = a ∧ y = b then 1 else 0))
      + (if x = b ∧ y = a then 1 else 0) := by
  by_cases hxb : x = b
  · subst hxb
    rw [upd_self]
    by_cases hxa : x = a
    · subst hxa
      rw [upd_self]
      simp only [List.count_append, List.count_singleton', beq_iff_eq]
      split_ifs <;> first | omega | tauto
    · rw [upd_ne _ _ _ hxa]
      simp only [List.count_append, List.count_singleton', beq_iff_eq]
      split_ifs <;> first | omega | tauto
  · rw [upd_ne _ _ _ hxb]
    by_cases hxa : x = a
    · subst hxa
      rw [upd_self]
      simp only [List.count_append, List.count_singleton', beq_iff_eq]
      split_ifs <;> first | omega | tauto
    · rw [upd_ne _ _ _ hxa]
      simp [hxb, hxa]

theorem count_erase_ne {l : List String} {a y : String} (h : y ≠ a) :
    (l.erase a).count y = l.count y := by
  rw [List.count_erase]
  simp [Ne.symm h]

theorem mem_upd_append {c : String → List String} {k v x y : String}
    (h : y ∈ (upd c k (c k ++ [v])) x) : y ∈ c x ∨ (x = k ∧ y = v) := by
  by_cases hxk : x = k
  · subst hxk
    rw [upd_self] at h
    rcases List.mem_append.mp h with h1 | h1
    · exact .inl h1
    · exact .inr ⟨rfl, List.mem_singleton.mp h1⟩
  · rw [upd_ne _ _ _ hxk] at h
    exact .inl h

/-! ### Invariants of the fabric state -/

/-- The adjacency map is symmetric at the level of multiplicities. -/
def ConnCountSym (s : AdaptiveFabric) : Prop :=
  ∀ x y, (s.connections x).count y = (s.connections y).count x

/-- Every id occurring in an adjacency list, on either side, is
registered. -/
def ConnRegistered (s : AdaptiveFabric) : Prop :=
  ∀ x y, y ∈ s.connections x → (s.agents x).isSome ∧ (s.agents y).isSome

/-- Every registered agent's `active_connections` counter is zero: nothing
in src/fabric.py ever updates the counter set up by `AgentBase.__init__`. -/
def CountersZero (s : AdaptiveFabric) : Prop :=
  ∀ i ag, s.agents i = some ag → ag.active_connections = 0

/-- Replacing one adjacency list in a count-symmetric map preserves
symmetry as long as only the multiplicity of the diagonal element (the key
itself) changes.  This covers the self-loop branches of
`disconnect_agents`, where `source = target`. -/
theorem connCountSym_upd_diag {c : String → List String} {a : String}
    {l : List String} (h : ∀ x y, (c x).count y = (c y).count x)
    (hl : ∀ y, y ≠ a → l.count y = (c a).count y) :
    ∀ x y, (((upd c a l) x).count y = ((upd c a l) y).count x) := by
  intro x y
  by_cases hx : x = a <;> by_cases hy : y = a
  · subst hx; subst hy; rfl
  · subst hx
    rw [upd_self, upd_ne _ _ _ hy, hl y hy, h x y]
  · subst hy
    rw [upd_self, upd_ne _ _ _ hx, hl x hx]
    exact h x y
  · rw [upd_ne _ _ _ hx, upd_ne _ _ _ hy]
    exact h x y

/-- The two `list.remove` calls of a successful `disconnect_agents` with
`source ≠ target` preserve count-symmetry. -/
theorem connCountSym_disconnect_ne {c : String → List String} {a b : String}
    (hab : a ≠ b) (h : ∀ x y, (c x).count y = (c y).count x) :
    ∀ x y, ((upd (upd c a ((c a).erase b)) b ((c b).erase a)) x).count y
      = ((upd (upd c a ((c a).erase b)) b ((c b).erase a)) y).count x := by
  intro x y
  have key : ∀ z w, ((upd (upd c a ((c a).erase b)) b ((c b).erase a)) z).count w
      = (c z).count w - ((if z = a ∧ w = b then 1 else 0)
          + (if z = b ∧ w = a then 1 else 0)) := by
    intro z w
    by_cases hzb : z = b
    · subst hzb
      rw [upd_self]
      by_cases hwa : w = a
      · subst hwa
        rw [List.count_erase_self]
        simp [hab, Ne.symm hab]
      · rw [count_erase_ne hwa]
        simp [hwa, Ne.symm hab]
    · rw [upd_ne _ _ _ hzb]
      by_cases hza : z = a
      · subst hza
        rw [upd_self]
        by_cases hwb : w = b
        · subst hwb
          rw [List.count_erase_self]
          simp [hzb]
        · rw [count_erase_ne hwb]
          simp [hwb, hzb]
      · rw [upd_ne _ _ _ hza]
        simp [hza, hzb]
  rw [key x y, key y x, h x y]
  have e1 : (x = a ∧ y = b) ↔ (y = b ∧ x = a) := and_comm
  have e2 : (x = b ∧ y = a) ↔ (y = a ∧ x = b) := and_comm
  rw [if_congr e1 rfl rfl, if_congr e2 rfl rfl]
  omega

/-! ### Fields each operation leaves untouched -/

theorem register_agent_fst_connections (s : AdaptiveFabric) (i d : String) :
    (s.register_agent i d).1.connections = s.connections := by
  unfold AdaptiveFabric.register_agent
  split_ifs <;> rfl

theorem connect_agents_fst_agents (s : AdaptiveFabric) (a b : String) (ts : Nat) :
    (s.connect_agents a b ts).1.agents = s.agents := by
  unfold AdaptiveFabric.connect_agents
  split_ifs <;> rfl

theorem disconnect_agents_fst_agents (s : AdaptiveFabric) (a b : String) :
    (s.disconnect_agents a b).1.agents = s.agents := by
  simp only [AdaptiveFabric.disconnect_agents]
  split
  · rfl
  · split
    · rfl
    · split <;> rfl

theorem relay_message_fst_agents (s : AdaptiveFabric) (a b m : String) :
    (s.relay_message a b m).1.agents = s.agents := by
  unfold AdaptiveFabric.relay_message
  split_ifs <;> rfl

theorem relay_message_fst_connections (s : AdaptiveFabric) (a b m : String) :
    (s.relay_message a b m).1.connections = s.connections := by
  unfold AdaptiveFabric.relay_message
  split_ifs <;> rfl

/-! ### Transport of the invariants along state equalities -/

theorem connCountSym_of_eq {s t : AdaptiveFabric}
    (hc : t.connections = s.connections) (h : ConnCountSym s) :
    ConnCountSym t := by
  intro x y
  rw [hc]
  exact h x y

theorem connRegistered_of_eq {s t : AdaptiveFabric} (ha : t.agents = s.agents)
    (hc : t.connections = s.connections) (h : ConnRegistered s) :
    ConnRegistered t := by
  intro x y hy
  rw [hc] at hy
  rw [ha]
  exact h x y hy

theorem countersZero_of_eq {s t : AdaptiveFabric} (ha : t.agents = s.agents)
    (h : CountersZero s) : CountersZero t := by
  intro i ag hag
  rw [ha] at hag
  exact h i ag hag

/-! ### Preservation of the invariants by each operation -/

theorem isSome_upd_some (f : String → Option AgentBase) (k : String)
    (r : AgentBase) (x : String) (h : (f x).isSome) :
    ((upd f k (some r)) x).isSome := by
  by_cases hx : x = k
  · subst hx
    rw [upd_self]
    rfl
  · rw [upd_ne _ _ _ hx]
    exact h

theorem connCountSym_register (s : AdaptiveFabric) (i d : String)
    (h : ConnCountSym s) : ConnCountSym (s.register_agent i d).1 :=
  connCountSym_of_eq (register_agent_fst_connections s i d) h

theorem connRegistered_register (s : AdaptiveFabric) (i d : String)
    (h : ConnRegistered s) : ConnRegistered (s.register_agent i d).1 := by
  unfold AdaptiveFabric.register_agent
  split_ifs with hp
  · exact h
  · intro x y hy
    dsimp at hy ⊢
    obtain ⟨hx1, hy1⟩ := h x y hy
    exact ⟨isSome_upd_some _ _ _ _ hx1, isSome_upd_some _ _ _ _ hy1⟩

theorem countersZero_register (s : AdaptiveFabric) (i d : String)
    (h : CountersZero s) : CountersZero (s.register_agent i d).1 := by
  unfold AdaptiveFabric.register_agent
  split_ifs with hp
  · exact h
  · intro j ag hag
    dsimp at hag
    by_cases hj : j = i
    · subst hj
      rw [upd_self] at hag
      injection hag with hag2
      rw [← hag2]
      rfl
    · rw [upd_ne _ _ _ hj] at hag
      exact h j ag hag

theorem connCountSym_connect (s : AdaptiveFabric) (a b : String) (ts : Nat)
    (h : ConnCountSym s) : ConnCountSym (s.connect_agents a b ts).1 := by
  unfold AdaptiveFabric.connect_agents
  split_ifs with hreg
  · exact h
  · intro x y
    dsimp
    rw [count_connect, count_connect, h x y]
    have e1 : (x = a ∧ y = b) ↔ (y = b ∧ x = a) := and_comm
    have e2 : (x = b ∧ y = a) ↔ (y = a ∧ x = b) := and_comm
    rw [if_congr e1 rfl rfl, if_congr e2 rfl rfl]
    omega

theorem connRegistered_connect (s : AdaptiveFabric) (a b : String) (ts : Nat)
    (h : ConnRegistered s) : ConnRegistered (s.connect_agents a b ts).1 := by
  unfold AdaptiveFabric.connect_agents
  split_ifs with hreg
  · exact h
  · push_neg at hreg
    obtain ⟨ha, hb⟩ := hreg
    have ha' : (s.agents a).isSome := Option.ne_none_iff_isSome.mp ha
    have hb' : (s.agents b).isSome := Option.ne_none_iff_isSome.mp hb
    intro x y hy
    dsimp at hy ⊢
    rcases mem_upd_append hy with hy1 | ⟨rfl, rfl⟩
    · rcases mem_upd_append hy1 with hy2 | ⟨rfl, rfl⟩
      · exact h x y hy2
      · exact ⟨ha', hb'⟩
    · exact ⟨hb', ha'⟩

theorem mem_upd_cases {c : String → List String} {k : String}
    {l : List String} {x y : String} (h : y ∈ (upd c k l) x) :
    (x = k ∧ y ∈ l) ∨ (x ≠ k ∧ y ∈ c x) := by
  by_cases hx : x = k
  · subst hx
    rw [upd_self] at h
    exact .inl ⟨rfl, h⟩
  · rw [upd_ne _ _ _ hx] at h
    exact .inr ⟨hx, h⟩

theorem connCountSym_disconnect (s : AdaptiveFabric) (a b : String)
    (h : ConnCountSym s) : ConnCountSym (s.disconnect_agents a b).1 := by
  simp only [AdaptiveFabric.disconnect_agents]
  split
  · exact h
  · split
    · exact h
    · next l1 h1 =>
      obtain ⟨hb1, rfl⟩ := removeFirst_eq_some h1
      split
      · next h2 =>
        by_cases hab : a = b
        · subst hab
          exact connCountSym_upd_diag h fun y hy => count_erase_ne hy
        · exfalso
          have hnone := removeFirst_eq_none.mp h2
          rw [upd_ne _ _ _ (Ne.symm hab)] at hnone
          have hpos : 0 < (s.connections b).count a := by
            rw [← h a b]
            exact List.count_pos_iff.mpr hb1
          exact hnone (List.count_pos_iff.mp hpos)
      · next l2 h2 =>
        obtain ⟨hb2, rfl⟩ := removeFirst_eq_some h2
        by_cases hab : a = b
        · subst hab
          exact connCountSym_upd_diag
            (connCountSym_upd_diag h fun y hy => count_erase_ne hy)
            fun y hy => count_erase_ne hy
        · have hba : (upd s.connections a ((s.connections a).erase b)) b
              = s.connections b := upd_ne _ _ _ (Ne.symm hab)
          rw [hba]
          exact connCountSym_disconnect_ne hab h

theorem disconnect_connections_subset (s : AdaptiveFabric) (a b x y : String)
    (hy : y ∈ (s.disconnect_agents a b).1.connections x) :
    y ∈ s.connections x := by
  simp only [AdaptiveFabric.disconnect_agents] at hy
  split at hy
  · exact hy
  · split at hy
    · exact hy
    · next l1 h1 =>
      obtain ⟨hb1, rfl⟩ := removeFirst_eq_some h1
      split at hy
      · rcases mem_upd_cases hy with ⟨rfl, hy2⟩ | ⟨hne, hy2⟩
        · exact List.erase_subset _ _ hy2
        · exact hy2
      · next l2 h2 =>
        obtain ⟨hb2, rfl⟩ := removeFirst_eq_some h2
        rcases mem_upd_cases hy with ⟨rfl, hy2⟩ | ⟨hne, hy2⟩
        · have hy3 := List.erase_subset _ _ hy2
          rcases mem_upd_cases hy3 with ⟨rfl, hy4⟩ | ⟨hne2, hy4⟩
          · exact List.erase_subset _ _ hy4
          · exact hy4
        · rcases mem_upd_cases hy2 with ⟨rfl, hy4⟩ | ⟨hne2, hy4⟩
          · exact List.erase_subset _ _ hy4
          · exact hy4

theorem connRegistered_disconnect (s : AdaptiveFabric) (a b : String)
    (h : ConnRegistered s) : ConnRegistered (s.disconnect_agents a b).1 := by
  intro x y hy
  rw [disconnect_agents_fst_agents]
  exact h x y (disconnect_connections_subset s a b x y hy)

/-! ### The invariants hold in every reachable state -/

def FabricInv (s : AdaptiveFabric) : Prop :=
  ConnCountSym s ∧ ConnRegistered s ∧ CountersZero s

theorem fabricInv_init : FabricInv AdaptiveFabric.init := by
  refine ⟨fun x y => rfl, fun x y hy => ?_, fun i ag hag => ?_⟩
  · cases hy
  · cases hag

theorem fabricInv_step (s : AdaptiveFabric) (op : Op) (h : FabricInv s) :
    FabricInv (stepOp s op).1 := by
  obtain ⟨h1, h2, h3⟩ := h
  cases op with
  | register i d =>
    exact ⟨connCountSym_register s i d h1, connRegistered_register s i d h2,
      countersZero_register s i d h3⟩
  | connect a b ts =>
    exact ⟨connCountSym_connect s a b ts h1, connRegistered_connect s a b ts h2,
      countersZero_of_eq (connect_agents_fst_agents s a b ts) h3⟩
  | disconnect a b =>
    exact ⟨connCountSym_disconnect s a b h1, connRegistered_disconnect s a b h2,
      countersZero_of_eq (disconnect_agents_fst_agents s a b) h3⟩
  | relay a b m =>
    exact ⟨connCountSym_of_eq (relay_message_fst_connections s a b m) h1,
      connRegistered_of_eq (relay_message_fst_agents s a b m)
        (relay_message_fst_connections s a b m) h2,
      countersZero_of_eq (relay_message_fst_agents s a b m) h3⟩

theorem fabricInv_runFrom (ops : List Op) (s : AdaptiveFabric)
    (h : FabricInv s) : FabricInv (runFrom s ops) := by
  induction ops generalizing s with
  | nil => exact h
  | cons op ops ih => exact ih _ (fabricInv_step s op h)

theorem fabricInv_run (ops : List Op) : FabricInv (run ops) :=
  fabricInv_runFrom ops _ fabricInv_init

/-- C1, counterexample: after `register A; register B; connect A B` the
agent `A` has degree 1 in the connection graph while its
`active_connections` counter still reads 0 — `connect_agents`
(src/fabric.py lines 37-52) never increments the counters, so the claimed
degree/counter invariant fails after the very first connect. -/
theorem C1_counterexample :
    ¬ (∀ i ag,
        (run [.register "A" "nlp", .register "B" "vision",
          .connect "A" "B" 0]).agents i = some ag →
        (((run [.register "A" "nlp", .register "B" "vision",
          .connect "A" "B" 0]).degree i : Int) = ag.active_connections)) := by
  intro hclaim
  have h := hclaim "A" (AgentBase.init "A" "nlp") (by decide)
  have hdeg : (run [.register "A" "nlp", .register "B" "vision",
      .connect "A" "B" 0]).degree "A" = 1 := by decide
  rw [hdeg] at h
  exact absurd h (by decide)

/-- C1 (amended): no fabric operation ever modifies `active_connections`
— for every registered agent, after any sequence of mutating operations
the counter still reads 0, so it equals the agent's degree in the
connection graph exactly when that degree is 0. -/
theorem C1_theorem (ops : List Op) :
    ∀ i ag, (run ops).agents i = some ag →
      ag.active_connections = 0 ∧
      ((((run ops).degree i : Int) = ag.active_connections) ↔
        (run ops).degree i = 0) := by
  intro i ag hag
  have h0 := (fabricInv_run ops).2.2 i ag hag
  refine ⟨h0, ?_⟩
  rw [h0]
  omega

/-- Witness for C1 (amended) at the one-registration run. -/
theorem C1_theorem_witness :
    (run [Op.register "A" "nlp"]).agents "A" = some (AgentBase.init "A" "nlp") ∧
    ((AgentBase.init "A" "nlp").active_connections = 0 ∧
      ((((run [Op.register "A" "nlp"]).degree "A" : Int)
          = (AgentBase.init "A" "nlp").active_connections) ↔
        (run [Op.register "A" "nlp"]).degree "A" = 0)) :=
  ⟨by decide,
    C1_theorem [Op.register "A" "nlp"] "A" (AgentBase.init "A" "nlp") (by decide)⟩

/-- C6, counterexample: `connect_agents` performs no self-loop check, so
after `register A; connect A A` the graph holds an edge from `A` to
itself, violating the claimed "no agent has an edge to itself" part. -/
theorem C6_counterexample :
    "A" ∈ (run [.register "A" "nlp", .connect "A" "A" 0]).connections "A" := by
  decide

/-- C6 (amended): after every sequence of fabric operations the graph is
symmetric — edge (a,b) is present iff edge (b,a) is present — and every id
appearing in an edge is present in the registry; but self-loops are not
prevented (`connect_agents(a, a)` inserts an edge from `a` to itself). -/
theorem C6_theorem (ops : List Op) (x y : String) :
    (y ∈ (run ops).connections x ↔ x ∈ (run ops).connections y) ∧
    (y ∈ (run ops).connections x →
      ((run ops).agents x).isSome ∧ ((run ops).agents y).isSome) := by
  obtain ⟨h1, h2, _⟩ := fabricInv_run ops
  refine ⟨⟨fun hm => ?_, fun hm => ?_⟩, h2 x y⟩
  · refine List.count_pos_iff.mp ?_
    rw [← h1 x y]
    exact List.count_pos_iff.mpr hm
  · refine List.count_pos_iff.mp ?_
    rw [← h1 y x]
    exact List.count_pos_iff.mpr hm

/-- Witness for C6 (amended): both endpoints of the edge created by
`connect A B` are registered. -/
theorem C6_theorem_witness :
    ((run [.register "A" "nlp", .register "B" "vision",
        .connect "A" "B" 0]).agents "A").isSome ∧
    ((run [.register "A" "nlp", .register "B" "vision",
        .connect "A" "B" 0]).agents "B").isSome :=
  (C6_theorem [.register "A" "nlp", .register "B" "vision",
    .connect "A" "B" 0] "A" "B").2 (by decide)

/-- C2, counterexample: with `A` and `B` registered but not connected,
`relay_message A B "x"` raises nothing (error component `none`): the
NotConnected condition is logged-and-swallowed (src/fabric.py lines 71-73),
contradicting the claimed synchronous typed failure. -/
theorem C2_counterexample :
    ((run [.register "A" "nlp", .register "B" "vision"]).relay_message
        "A" "B" "x").2 = none ∧
    (run [.register "A" "nlp", .register "B" "vision"]).agents "A" ≠ none ∧
    (run [.register "A" "nlp", .register "B" "vision"]).agents "B" ≠ none ∧
    "B" ∉ (run [.register "A" "nlp", .register "B" "vision"]).connections "A" := by
  refine ⟨by decide, by decide, by decide, by decide⟩

/-- C2 (amended): `relay_message` raises `FabricConnectionError`
("Agents not found") when either id is unregistered; when both are
registered but no edge (from, to) exists it does not fail at all — it
appends a warning to the log and returns normally, so the NotConnected
violation is logged-and-swallowed instead of reported to the caller. -/
theorem C2_theorem (s : AdaptiveFabric) (src tgt msg : String) :
    (s.agents src = none ∨ s.agents tgt = none →
      s.relay_message src tgt msg = (s, some "Agents not found")) ∧
    (s.agents src ≠ none → s.agents tgt ≠ none → tgt ∉ s.connections src →
      s.relay_message src tgt msg =
        ({ s with warnLog := s.warnLog ++
            ["No direct connection between " ++ src ++ " and " ++ tgt] },
          none)) := by
  constructor
  · intro h
    unfold AdaptiveFabric.relay_message
    rw [if_pos h]
  · intro h1 h2 h3
    unfold AdaptiveFabric.relay_message
    rw [if_neg (by tauto), if_neg h3]

/-- Witness for C2 (amended) at the registered-but-unconnected pair: the
relay returns with no exception. -/
theorem C2_theorem_witness :
    ((run [.register "A" "nlp", .register "B" "vision"]).relay_message
        "A" "B" "x").2 = none := by
  have h := (C2_theorem (run [.register "A" "nlp", .register "B" "vision"])
    "A" "B" "x").2 (by decide) (by decide) (by decide)
  rw [h]

/-- C3, counterexample: after a successful `connect A B`, a second
`connect A B` raises nothing (no `AlreadyConnected`) and leaves `B` twice
in `A`'s adjacency list — the graph does not show exactly one edge. -/
theorem C3_counterexample :
    (AdaptiveFabric.connect_agents (run [.register "A" "nlp",
      .register "B" "vision", .connect "A" "B" 0]) "A" "B" 1).2 = none ∧
    (AdaptiveFabric.connect_agents (run [.register "A" "nlp",
      .register "B" "vision", .connect "A" "B" 0]) "A" "B" 1).1.connections "A"
      = ["B", "B"] := by
  refine ⟨by decide, by decide⟩

/-- C3 (amended): for distinct registered agents a and b,
`connect_agents(a, b)` always succeeds — there is no already-connected
check — and each call appends one more copy of b to a's adjacency list, so
a repeated connect leaves the edge represented twice rather than failing
with `AlreadyConnected`. -/
theorem C3_theorem (s : AdaptiveFabric) (a b : String) (ts : Nat)
    (ha : s.agents a ≠ none) (hb : s.agents b ≠ none) (hab : a ≠ b) :
    (s.connect_agents a b ts).2 = none ∧
    ((s.connect_agents a b ts).1.connections a).count b
      = (s.connections a).count b + 1 := by
  unfold AdaptiveFabric.connect_agents
  rw [if_neg (by tauto)]
  refine ⟨rfl, ?_⟩
  dsimp only
  rw [count_connect]
  simp [hab]

/-- Witness for C3 (amended): the second connect on the already-connected
pair (A, B) succeeds and bumps the edge multiplicity. -/
theorem C3_theorem_witness :
    ((AdaptiveFabric.connect_agents (run [.register "A" "nlp",
      .register "B" "vision", .connect "A" "B" 0]) "A" "B" 1).2 = none) ∧
    ((((AdaptiveFabric.connect_agents (run [.register "A" "nlp",
        .register "B" "vision", .connect "A" "B" 0]) "A" "B" 1).1.connections
          "A").count "B")
      = ((((run [.register "A" "nlp", .register "B" "vision",
          .connect "A" "B" 0]).connections "A").count "B") + 1)) :=
  C3_theorem (run [.register "A" "nlp", .register "B" "vision",
    .connect "A" "B" 0]) "A" "B" 1 (by decide) (by decide) (by decide)

/-- Shape of the state produced by a successful `connect_agents`. -/
theorem connect_agents_ok (s : AdaptiveFabric) (a b : String) (ts : Nat)
    (h : ¬(s.agents a = none ∨ s.agents b = none)) :
    s.connect_agents a b ts =
      ({ s with
          communication_channels := upd s.communication_channels (chanKey a b)
            (some { source := a, target := b, timestamp := ts }),
          connections := upd (upd s.connections a (s.connections a ++ [b])) b
            ((upd s.connections a (s.connections a ++ [b])) b ++ [a]) },
        none) := by
  unfold AdaptiveFabric.connect_agents
  rw [if_neg h]

/-- C4 (confirmed): from any fabric state in which a and b are registered,
not connected in either direction, and without a stale (a,b) channel
entry, `connect_agents(a, b)` followed by `disconnect_agents(a, b)` raises
nothing and restores both the connection graph and the channel table to
their pre-connect values. -/
theorem C4_theorem (s : AdaptiveFabric) (a b : String) (ts : Nat)
    (ha : s.agents a ≠ none) (hb : s.agents b ≠ none)
    (hnab : b ∉ s.connections a) (hnba : a ∉ s.connections b)
    (hch : s.communication_channels (chanKey a b) = none) :
    (s.connect_agents a b ts).2 = none ∧
    ((s.connect_agents a b ts).1.disconnect_agents a b).2 = none ∧
    ((s.connect_agents a b ts).1.disconnect_agents a b).1.connections
      = s.connections ∧
    ((s.connect_agents a b ts).1.disconnect_agents a b).1.communication_channels
      = s.communication_channels := by
  rw [connect_agents_ok s a b ts (by tauto)]
  refine ⟨rfl, ?_⟩
  by_cases hab : a = b
  · subst hab
    have e1 : (upd s.connections a (s.connections a ++ [a])) a
        = s.connections a ++ [a] := upd_self _ _ _
    simp only [AdaptiveFabric.disconnect_agents, e1, upd_self]
    have e_rf1 : removeFirst ((s.connections a ++ [a]) ++ [a]) a
        = some (s.connections a ++ [a]) := by
      rw [removeFirst_of_mem (by simp), List.append_assoc,
        List.erase_append_right _ hnab, List.singleton_append,
        List.erase_cons_head]
    simp only [e_rf1, upd_self]
    have e_rf2 : removeFirst (s.connections a ++ [a]) a
        = some (s.connections a) := by
      rw [removeFirst_of_mem (by simp), List.erase_append_right _ hnab,
        List.erase_cons_head, List.append_nil]
    simp only [e_rf2]
    refine ⟨trivial, ?_, ?_⟩
    · funext x
      by_cases hxa : x = a
      · subst hxa
        rw [upd_self]
      · rw [upd_ne _ _ _ hxa, upd_ne _ _ _ hxa, upd_ne _ _ _ hxa,
          upd_ne _ _ _ hxa]
    · funext x
      by_cases hxk : x = chanKey a a
      · subst hxk
        rw [upd_self, hch]
      · rw [upd_ne _ _ _ hxk, upd_ne _ _ _ hxk]
  · have e1 : (upd s.connections a (s.connections a ++ [b])) b
        = s.connections b := upd_ne _ _ _ (Ne.symm hab)
    have e_conn_a : (upd (upd s.connections a (s.connections a ++ [b])) b
        ((upd s.connections a (s.connections a ++ [b])) b ++ [a])) a
        = s.connections a ++ [b] := by
      rw [upd_ne _ _ _ hab, upd_self]
    have e_conn_b : (upd (upd s.connections a (s.connections a ++ [b])) b
        ((upd s.connections a (s.connections a ++ [b])) b ++ [a])) b
        = s.connections b ++ [a] := by
      rw [upd_self, e1]
    simp only [AdaptiveFabric.disconnect_agents, upd_self, e_conn_a]
    have e_rf1 : removeFirst (s.connections a ++ [b]) b
        = some (s.connections a) := by
      rw [removeFirst_of_mem (by simp), List.erase_append_right _ hnab,
        List.erase_cons_head, List.append_nil]
    simp only [e_rf1]
    have e_s2b : (upd (upd (upd s.connections a (s.connections a ++ [b])) b
        ((upd s.connections a (s.connections a ++ [b])) b ++ [a])) a
        (s.connections a)) b = s.connections b ++ [a] := by
      rw [upd_ne _ _ _ (Ne.symm hab), e_conn_b]
    simp only [e_s2b]
    have e_rf2 : removeFirst (s.connections b ++ [a]) a
        = some (s.connections b) := by
      rw [removeFirst_of_mem (by simp), List.erase_append_right _ hnba,
        List.erase_cons_head, List.append_nil]
    simp only [e_rf2]
    refine ⟨trivial, ?_, ?_⟩
    · funext x
      by_cases hxb : x = b
      · subst hxb
        rw [upd_self]
      · rw [upd_ne _ _ _ hxb]
        by_cases hxa : x = a
        · subst hxa
          rw [upd_self]
        · rw [upd_ne _ _ _ hxa, upd_ne _ _ _ hxb, upd_ne _ _ _ hxa]
    · funext x
      by_cases hxk : x = chanKey a b
      · subst hxk
        rw [upd_self, hch]
      · rw [upd_ne _ _ _ hxk, upd_ne _ _ _ hxk]

/-- Witness for C4 at the freshly-registered pair (A, B). -/
theorem C4_theorem_witness :
    ((run [.register "A" "nlp", .register "B" "vision"]).connect_agents
        "A" "B" 7).2 = none ∧
    (AdaptiveFabric.disconnect_agents
      ((run [.register "A" "nlp", .register "B" "vision"]).connect_agents
        "A" "B" 7).1 "A" "B").2 = none ∧
    (AdaptiveFabric.disconnect_agents
      ((run [.register "A" "nlp", .register "B" "vision"]).connect_agents
        "A" "B" 7).1 "A" "B").1.connections
      = (run [.register "A" "nlp", .register "B" "vision"]).connections ∧
    (AdaptiveFabric.disconnect_agents
      ((run [.register "A" "nlp", .register "B" "vision"]).connect_agents
        "A" "B" 7).1 "A" "B").1.communication_channels
      = (run [.register "A" "nlp",
          .register "B" "vision"]).communication_channels :=
  C4_theorem (run [.register "A" "nlp", .register "B" "vision"]) "A" "B" 7
    (by decide) (by decide) (by decide) (by decide) (by decide)

/-- C5, counterexample: activating an idle agent whose runtime
initialization raises "boom" returns normally (an `Except.ok` carrying the
agent in status 'error'): the triggering fault is caught and only logged
inside `activate` (src/agent.py lines 55-60), so it is swallowed rather
than reported to the caller as the claim states. -/
theorem C5_counterexample :
    (AgentBase.init "A" "nlp").activate (.error "boom")
      = .ok { AgentBase.init "A" "nlp" with status := "error" } := by
  rfl

/-- C5 (amended): `activate()` is a no-op when the agent is already
`active`; from any non-active state it passes through `activating` and
ends `active` on success and `error` on failure — but the triggering fault
is caught and logged, not reported: the call always returns normally. -/
theorem C5_theorem (ag : AgentBase) (rt : Except String Unit) :
    (ag.status = "active" → ag.activate rt = .ok ag) ∧
    (ag.status ≠ "active" → rt = .ok () → ag.activate rt
        = .ok { ag with status := "active" }) ∧
    (ag.status ≠ "active" → ∀ e, rt = .error e → ag.activate rt
        = .ok { ag with status := "error" }) := by
  refine ⟨?_, ?_, ?_⟩
  · intro h
    unfold AgentBase.activate
    rw [if_pos h]
  · intro h hok
    subst hok
    unfold AgentBase.activate
    rw [if_neg h]
  · intro h e herr
    subst herr
    unfold AgentBase.activate
    rw [if_neg h]

/-- Witness for C5 (amended): a failed activation from `idle` returns
`.ok` with status 'error'. -/
theorem C5_theorem_witness :
    (AgentBase.init "A" "nlp").status ≠ "active" ∧
    (AgentBase.init "A" "nlp").activate (.error "x")
      = .ok { AgentBase.init "A" "nlp" with status := "error" } :=
  ⟨by decide,
    (C5_theorem (AgentBase.init "A" "nlp") (.error "x")).2.2 (by decide) "x" rfl⟩

/-- C7 (confirmed): `register_agent` fails (raising
`FabricConnectionError "... already registered"`, state unchanged) exactly
when the id is already present; otherwise it succeeds, stores exactly one
fresh `AgentBase` under the id — every other registry entry is unchanged —
and the new record is in state 'idle' with `cpu_usage`, `memory_usage` and
`active_connections` all zero. -/
theorem C7_theorem (s : AdaptiveFabric) (i d : String) :
    ((s.agents i).isSome →
      s.register_agent i d = (s, some ("Agent " ++ i ++ " already registered"))) ∧
    (¬(s.agents i).isSome →
      (s.register_agent i d).2 = none ∧
      (s.register_agent i d).1.agents i = some (AgentBase.init i d) ∧
      (∀ j, j ≠ i → (s.register_agent i d).1.agents j = s.agents j) ∧
      (AgentBase.init i d).status = "idle" ∧
      (AgentBase.init i d).cpu_usage = 0 ∧
      (AgentBase.init i d).memory_usage = 0 ∧
      (AgentBase.init i d).active_connections = 0) := by
  constructor
  · intro h
    unfold AdaptiveFabric.register_agent
    rw [if_pos h]
  · intro h
    unfold AdaptiveFabric.register_agent
    rw [if_neg h]
    refine ⟨rfl, upd_self _ _ _, fun j hj => upd_ne _ _ _ hj, rfl, rfl, rfl, rfl⟩

/-- Witness for C7 on a fresh fabric. -/
theorem C7_theorem_witness :
    (AdaptiveFabric.init.register_agent "A" "nlp").2 = none ∧
    (AdaptiveFabric.init.register_agent "A" "nlp").1.agents "A"
      = some (AgentBase.init "A" "nlp") :=
  ⟨((C7_theorem AdaptiveFabric.init "A" "nlp").2 (by decide)).1,
    ((C7_theorem AdaptiveFabric.init "A" "nlp").2 (by decide)).2.1⟩

/-- C8 (confirmed against the spec-modelled `unregister_agent`, since src/
contains no unregister operation): unregistering an absent id fails with
NotFound, unregistering a registered agent with positive degree fails with
HasConnections, and in both failure cases the returned state is exactly
the input state — the record is left fully intact. -/
theorem C8_theorem (s : AdaptiveFabric) (i : String) :
    (s.agents i = none → s.unregister_agent i = (s, some "NotFound")) ∧
    (s.agents i ≠ none → 0 < s.degree i →
      s.unregister_agent i = (s, some "HasConnections")) := by
  constructor
  · intro h
    unfold AdaptiveFabric.unregister_agent
    rw [if_pos h]
  · intro h hdeg
    have hdeg2 : 0 < (s.connections i).length := hdeg
    unfold AdaptiveFabric.unregister_agent
    rw [if_neg h, if_pos hdeg2]

/-- Witness for C8: with the edge (A, B) in place, unregistering A fails
with HasConnections and changes nothing. -/
theorem C8_theorem_witness :
    (run [.register "A" "nlp", .register "B" "vision",
        .connect "A" "B" 0]).unregister_agent "A"
      = (run [.register "A" "nlp", .register "B" "vision",
          .connect "A" "B" 0], some "HasConnections") :=
  (C8_theorem (run [.register "A" "nlp", .register "B" "vision",
    .connect "A" "B" 0]) "A").2 (by decide) (by decide)

/-- C9 (confirmed): the channel table is keyed by the ordered string
`"source_target"`, so after `connect_agents(a, b)` the reversed call
`disconnect_agents(b, a)` looks up the missing key `"b_a"`, raises
"Agents are not connected" and leaves the whole state (graph and channel
table included) untouched, while `disconnect_agents(a, b)` with the
original order succeeds.  The hypotheses say a and b are registered, the
reversed key differs from the stored one, and no stale reversed-key
channel exists. -/
theorem C9_theorem (s : AdaptiveFabric) (a b : String) (ts : Nat)
    (ha : s.agents a ≠ none) (hb : s.agents b ≠ none)
    (hkey : chanKey b a ≠ chanKey a b)
    (hrev : s.communication_channels (chanKey b a) = none) :
    ((s.connect_agents a b ts).1.disconnect_agents b a)
        = ((s.connect_agents a b ts).1, some "Agents are not connected") ∧
    ((s.connect_agents a b ts).1.disconnect_agents a b).2 = none := by
  have hab : a ≠ b := fun h => hkey (by rw [h])
  rw [connect_agents_ok s a b ts (by tauto)]
  constructor
  · have hmiss : (upd s.communication_channels (chanKey a b)
        (some { source := a, target := b, timestamp := ts })) (chanKey b a)
        = none := by
      rw [upd_ne _ _ _ hkey, hrev]
    unfold AdaptiveFabric.disconnect_agents
    dsimp only
    rw [hmiss]
  · have e1 : (upd s.connections a (s.connections a ++ [b])) b
        = s.connections b := upd_ne _ _ _ (Ne.symm hab)
    have e_conn_a : (upd (upd s.connections a (s.connections a ++ [b])) b
        ((upd s.connections a (s.connections a ++ [b])) b ++ [a])) a
        = s.connections a ++ [b] := by
      rw [upd_ne _ _ _ hab, upd_self]
    have e_rf1 : removeFirst (s.connections a ++ [b]) b
        = some ((s.connections a ++ [b]).erase b) :=
      removeFirst_of_mem (by simp)
    simp only [AdaptiveFabric.disconnect_agents, upd_self, e_conn_a, e_rf1]
    have e_s2b : (upd (upd (upd s.connections a (s.connections a ++ [b])) b
        ((upd s.connections a (s.connections a ++ [b])) b ++ [a])) a
        ((s.connections a ++ [b]).erase b)) b = s.connections b ++ [a] := by
      rw [upd_ne _ _ _ (Ne.symm hab), upd_self, e1]
    have e_rf2 : removeFirst (s.connections b ++ [a]) a
        = some ((s.connections b ++ [a]).erase a) :=
      removeFirst_of_mem (by simp)
    simp only [e_s2b, e_rf2]

/-- Witness for C9 on the freshly-connected pair (A, B). -/
theorem C9_theorem_witness :
    (AdaptiveFabric.disconnect_agents
        ((run [.register "A" "nlp", .register "B" "vision"]).connect_agents
          "A" "B" 0).1 "B" "A")
      = (((run [.register "A" "nlp", .register "B" "vision"]).connect_agents
          "A" "B" 0).1, some "Agents are not connected") ∧
    (AdaptiveFabric.disconnect_agents
        ((run [.register "A" "nlp", .register "B" "vision"]).connect_agents
          "A" "B" 0).1 "A" "B").2 = none :=
  C9_theorem (run [.register "A" "nlp", .register "B" "vision"]) "A" "B" 0
    (by decide) (by decide) (by decide) (by decide)

/-- C10 (confirmed): `receive_message` never raises — all three abnormal
situations are swallowed into a `none` result: unset channel (the internal
`RuntimeError`), empty queue (falsy message), and a dequeued message whose
recipient is not this agent (the internal `ValueError`); in the last case
the mis-addressed message has already been consumed from the queue and is
lost. -/
theorem C10_theorem (ag : AgentBase) (recipient content : String)
    (rest : List (String × String)) :
    (ag.communication_channel = none → ag.receive_message = (none, ag)) ∧
    (ag.communication_channel = some [] → ag.receive_message = (none, ag)) ∧
    (ag.communication_channel = some ((recipient, content) :: rest) →
      recipient ≠ ag.agent_id →
      ag.receive_message
        = (none, { ag with communication_channel := some rest })) := by
  refine ⟨?_, ?_, ?_⟩
  · intro h
    unfold AgentBase.receive_message
    rw [h]
  · intro h
    unfold AgentBase.receive_message
    rw [h]
  · intro h hne
    unfold AgentBase.receive_message
    rw [h]
    dsimp only
    rw [if_neg hne]

/-- Witness for C10: a message addressed to "B" sitting in "A"'s queue is
consumed and the call returns `none`. -/
theorem C10_theorem_witness :
    { AgentBase.init "A" "nlp" with
        communication_channel := some [("B", "hi")] }.receive_message
      = (none, { AgentBase.init "A" "nlp" with
          communication_channel := some ([] : List (String × String)) }) :=
  (C10_theorem { AgentBase.init "A" "nlp" with
      communication_channel := some [("B", "hi")] } "B" "hi" []).2.2
    rfl (by decide)

end Fabric
